import Mathlib

/-
Verification development for the multi-provider AI invocation layer of the
coach backend (backend/services/ai_providers).  The Python data model and
operations are shallowly embedded as Lean definitions; vendor network calls
are injected as explicit outcome values, so every function here is a total,
executable translation of the corresponding source function.
-/

set_option autoImplicit false

namespace Coach

/-- Provider type tags, mirroring AIProviderType in base.py. -/
inductive AIProviderType where
  | openai
  | anthropic
  | google
  | openrouter
  | xai
  | ollama
deriving DecidableEq

/-- Error raised by providers and by the manager, mirroring AIProviderError
in base.py: a message, the originating provider name, and an optional
error-code string (the constructor default for the code is None). -/
structure AIProviderError where
  message : String
  provider : String
  errorCode : Option String
deriving DecidableEq

/-- Normalized response shape, mirroring AIResponse in base.py.  The usage
dictionary is modelled as an association list in insertion order. -/
structure AIResponse where
  content : Option String
  provider : String
  model : String
  usage : List (String × Nat)
  finishReason : Option String
deriving DecidableEq

/-- Static provider configuration, mirroring ProviderConfig in base.py. -/
structure ProviderConfig where
  providerType : AIProviderType
  apiKey : String
  model : String
  baseUrl : Option String
  enabled : Bool
  timeout : Nat
  maxRetries : Nat
deriving DecidableEq

/-- Whitespace test matching the characters stripped by the Python str
strip method in the ASCII range. -/
def charIsSpace (c : Char) : Bool :=
  c == ' ' || c == '\t' || c == '\n' || c == '\r' || c == (Char.ofNat 11) || c == (Char.ofNat 12)

/-- Strip leading and trailing whitespace from a character list. -/
def stripChars (l : List Char) : List Char :=
  ((l.dropWhile charIsSpace).reverse.dropWhile charIsSpace).reverse

/-- Translation of the Python str strip method. -/
def pyStrip (s : String) : String :=
  String.mk (stripChars s.data)

/-- Leading-segment test on character lists. -/
def listStarts : List Char → List Char → Bool
  | [], _ => true
  | _ :: _, [] => false
  | p :: ps, c :: cs => p == c && listStarts ps cs

/-- Translation of the Python str startswith method. -/
def pyStartsWith (s pre : String) : Bool :=
  listStarts pre.data s.data

/-- Translation of ProviderConfig.is_configured in base.py: the api key is
truthy, strips to a nonempty string, is not a placeholder, is not the
sentinel string none, and the config is enabled.  There is no special case
for any provider type. -/
def ProviderConfig.is_configured (c : ProviderConfig) : Bool :=
  decide (c.apiKey ≠ "") && decide (pyStrip c.apiKey ≠ "") &&
    !(pyStartsWith c.apiKey ("your-")) && decide (c.apiKey ≠ ("none")) && c.enabled

/-- Translation of AIProvider.is_available in base.py (the generic
credential check used by every hosted provider). -/
def AIProvider.is_available (apiKey : String) : Bool :=
  decide (apiKey ≠ "") && decide (pyStrip apiKey ≠ "") &&
    !(pyStartsWith apiKey ("your-")) && decide (apiKey ≠ ("none"))

/-- Translation of OllamaProvider.is_available in ollama_provider.py: the
override always returns true. -/
def OllamaProvider.is_available : Bool := true

/-- Dispatch of is_available through the provider class table used by the
manager: only the ollama class overrides the generic credential check. -/
def providerIsAvailable (c : ProviderConfig) : Bool :=
  match c.providerType with
  | .ollama => OllamaProvider.is_available
  | _ => AIProvider.is_available c.apiKey

/-- The ollama configuration built by configure_from_env in manager.py when
OLLAMA_MODEL is set but OLLAMA_API_KEY is absent: the api key defaults to
the sentinel string none. -/
def ollamaDefaultConfig (model : String) (baseUrl : Option String) : ProviderConfig :=
  { providerType := .ollama
    apiKey := ("none")
    model := model
    baseUrl := baseUrl
    enabled := true
    timeout := 30
    maxRetries := 3 }

/-- Outcome of a single provider generate_text call, as seen by the
manager: a successful response, a raised AIProviderError, or an unexpected
exception carrying its string rendering. -/
inductive GenOutcome where
  | ok (r : AIResponse)
  | provErr (e : AIProviderError)
  | unexpected (msg : String)
deriving DecidableEq

/-- True exactly when the outcome is a successful response. -/
def outcomeOk : GenOutcome → Bool
  | .ok _ => true
  | _ => false

/-- The response carried by a successful outcome. -/
def outcomeResponse : GenOutcome → Option AIResponse
  | .ok r => some r
  | _ => none

/-- The last_error value recorded by the fallback loop for a failed
attempt by provider n: the raised AIProviderError itself, or a fresh
AIProviderError with code unknown_error wrapping an unexpected exception. -/
def derivedError (n : String) : GenOutcome → Option AIProviderError
  | .ok _ => none
  | .provErr e => some e
  | .unexpected msg => some ⟨msg, n, some ("unknown_error")⟩

/-- String interpolation of the optional last error, as Python renders it
inside the terminal error message. -/
def lastErrorText : Option AIProviderError → String
  | none => ("None")
  | some e => e.message

/-- The terminal error raised when the fallback loop exhausts all
providers. -/
def allFailedError (le : Option AIProviderError) : AIProviderError :=
  ⟨("All AI providers failed. Last error: ") ++ lastErrorText le,
    ("manager"), some ("all_providers_failed")⟩

/-- Append an element to the accumulator unless it is already present;
this is the membership-guarded append used twice in manager.py. -/
def appendIfNew (acc : List String) (n : String) : List String :=
  if n ∈ acc then acc else acc ++ [n]

/-- Fold appendIfNew over a list, starting from an accumulator. -/
def dedupAppend (acc l : List String) : List String :=
  l.foldl appendIfNew acc

/-- Manager state, mirroring AIProviderManager in manager.py.  The live
provider dictionary is modelled by its key list in insertion order, the
configuration dictionary by an association list, and the initialized flag
by the field inited. -/
structure AIProviderManager where
  providers : List String
  providerConfigs : List (String × ProviderConfig)
  providerPriority : List String
  inited : Bool
deriving DecidableEq

/-- True when initialize registers the named configuration: the config
passes is_configured, no exception occurs while constructing or setting up
the provider (injected through initFails), and the constructed instance
reports is_available. -/
def registersOnInit (initFails : String → Bool) (nc : String × ProviderConfig) : Bool :=
  nc.2.is_configured && !(initFails nc.1) && providerIsAvailable nc.2

/-- Translation of AIProviderManager.initialize: a no-op when already
initialized, otherwise every configured entry that passes the checks is
registered into the live map, and the initialized flag is set. -/
def mgrInit (initFails : String → Bool) (m : AIProviderManager) : AIProviderManager :=
  if m.inited then m
  else
    { m with
      providers := m.providerConfigs.foldl
        (fun acc nc => if registersOnInit initFails nc then appendIfNew acc nc.1 else acc)
        m.providers
      inited := true }

/-- Translation of AIProviderManager.cleanup: the live map is cleared and
the initialized flag reset; the configuration and priority are untouched. -/
def cleanup (m : AIProviderManager) : AIProviderManager :=
  { m with providers := [], inited := false }

/-- Translation of the body of get_available_providers on an initialized
manager: first every priority entry that is live (appended without a
duplicate check, exactly as in the source), then every remaining live
provider not already in the list. -/
def availableOrder (m : AIProviderManager) : List String :=
  dedupAppend (m.providerPriority.filter (fun n => decide (n ∈ m.providers))) m.providers

/-- Translation of AIProviderManager.get_available_providers, including
the lazy initialization it performs first. -/
def get_available_providers (initFails : String → Bool) (m : AIProviderManager) : List String :=
  availableOrder (mgrInit initFails m)

/-- Trial order built by generate_text on an initialized manager: the
preferred provider first when it is truthy and live, then the available
providers with duplicates skipped. -/
def trialOrder (m : AIProviderManager) (preferred : Option String) : List String :=
  let base : List String :=
    match preferred with
    | some p => if p ≠ "" ∧ p ∈ m.providers then [p] else []
    | none => []
  dedupAppend base (availableOrder m)

/-- Translation of the fallback loop in generate_text: try each provider
in order, return the first success, record the last error on each failure,
and raise the terminal all_providers_failed error when the order is
exhausted.  The first component of the result is the list of providers
actually invoked, in order. -/
def runFallback (live : List String) (behavior : String → GenOutcome) :
    List String → Option AIProviderError → List String × Except AIProviderError AIResponse
  | [], le => ([], .error (allFailedError le))
  | n :: rest, le =>
      if n ∈ live then
        match behavior n with
        | .ok r => ([n], .ok r)
        | .provErr e =>
            let p := runFallback live behavior rest (some e)
            (n :: p.1, p.2)
        | .unexpected msg =>
            let p := runFallback live behavior rest (some ⟨msg, n, some ("unknown_error")⟩)
            (n :: p.1, p.2)
      else
        runFallback live behavior rest le

/-- Translation of AIProviderManager.generate_text: lazy initialization,
the no_providers guard, trial-order construction, and the fallback loop.
The first component of the result is the attempt trace. -/
def generate_text (initFails : String → Bool) (m : AIProviderManager)
    (behavior : String → GenOutcome) (preferred : Option String) :
    List String × Except AIProviderError AIResponse :=
  let m1 := mgrInit initFails m
  if m1.providers = [] then
    ([], .error ⟨("No AI providers available"), ("manager"), some ("no_providers")⟩)
  else
    runFallback m1.providers behavior (trialOrder m1 preferred) none

/-- Walk of the priority list performed by get_preferred_provider: for
each live entry run the health probe (an exception counts as unhealthy)
and return the first healthy name. -/
def preferredWalk (providers : List String) (health : String → Except String Bool) :
    List String → Option String
  | [] => none
  | n :: rest =>
      if n ∈ providers then
        match health n with
        | .ok true => some n
        | _ => preferredWalk providers health rest
      else preferredWalk providers health rest

/-- Translation of AIProviderManager.get_preferred_provider, including its
lazy initialization. -/
def get_preferred_provider (initFails : String → Bool) (m : AIProviderManager)
    (health : String → Except String Bool) : Option String :=
  preferredWalk (mgrInit initFails m).providers health (mgrInit initFails m).providerPriority

theorem mem_appendIfNew {acc : List String} {n x : String} :
    x ∈ appendIfNew acc n ↔ x ∈ acc ∨ x = n := by
  unfold appendIfNew
  by_cases h : n ∈ acc
  · simp only [if_pos h]
    constructor
    · exact Or.inl
    · rintro (hx | rfl)
      · exact hx
      · exact h
  · simp [if_neg h]

theorem nodup_appendIfNew {acc : List String} {n : String} (h : acc.Nodup) :
    (appendIfNew acc n).Nodup := by
  unfold appendIfNew
  by_cases hn : n ∈ acc
  · simpa [if_pos hn]
  · simp [if_neg hn, List.nodup_append, h, hn]

theorem mem_dedupAppend {l : List String} :
    ∀ {acc : List String} {x : String}, x ∈ dedupAppend acc l ↔ x ∈ acc ∨ x ∈ l := by
  induction l with
  | nil => simp [dedupAppend]
  | cons n t ih =>
      intro acc x
      show x ∈ dedupAppend (appendIfNew acc n) t ↔ _
      rw [ih, mem_appendIfNew]
      simp [or_assoc]

theorem nodup_dedupAppend {l : List String} :
    ∀ {acc : List String}, acc.Nodup → (dedupAppend acc l).Nodup := by
  induction l with
  | nil => intro acc h; exact h
  | cons n t ih =>
      intro acc h
      exact ih (nodup_appendIfNew h)

theorem dedupAppend_eq_append {l : List String} (hl : l.Nodup) :
    ∀ (acc : List String), dedupAppend acc l = acc ++ l.filter (fun x => decide (x ∉ acc)) := by
  induction l with
  | nil => intro acc; simp [dedupAppend]
  | cons n t ih =>
      intro acc
      have hn : n ∉ t := (List.nodup_cons.mp hl).1
      have ht : t.Nodup := (List.nodup_cons.mp hl).2
      show dedupAppend (appendIfNew acc n) t = _
      by_cases hmem : n ∈ acc
      · rw [show appendIfNew acc n = acc from if_pos hmem, ih ht acc]
        simp [List.filter_cons, hmem]
      · rw [show appendIfNew acc n = acc ++ [n] from if_neg hmem, ih ht (acc ++ [n])]
        have hfc : t.filter (fun x => decide (x ∉ acc ++ [n])) = t.filter (fun x => decide (x ∉ acc)) := by
          apply List.filter_congr
          intro x hx
          have hxn : x ≠ n := fun h => hn (h ▸ hx)
          simp [List.mem_append, hxn]
        rw [hfc]
        simp [List.filter_cons, hmem]

theorem dedupAppend_append {acc l₁ l₂ : List String} :
    dedupAppend acc (l₁ ++ l₂) = dedupAppend (dedupAppend acc l₁) l₂ := by
  unfold dedupAppend
  exact List.foldl_append ..

theorem mem_availableOrder {m : AIProviderManager} {x : String} :
    x ∈ availableOrder m ↔ x ∈ m.providers := by
  unfold availableOrder
  rw [mem_dedupAppend]
  constructor
  · rintro (hx | hx)
    · exact of_decide_eq_true (List.mem_filter.mp hx).2
    · exact hx
  · exact Or.inr

theorem mem_trialOrder_sub {m : AIProviderManager} {preferred : Option String} {x : String}
    (h : x ∈ trialOrder m preferred) : x ∈ m.providers := by
  unfold trialOrder at h
  rw [mem_dedupAppend] at h
  rcases h with h | h
  · rcases preferred with _ | p
    · simp at h
    · by_cases hc : p ≠ "" ∧ p ∈ m.providers
      · simp only [if_pos hc, List.mem_singleton] at h
        exact h ▸ hc.2
      · simp [if_neg hc] at h
  · exact mem_availableOrder.mp h

theorem providers_sub_trialOrder {m : AIProviderManager} {preferred : Option String} {x : String}
    (h : x ∈ m.providers) : x ∈ trialOrder m preferred := by
  unfold trialOrder
  rw [mem_dedupAppend]
  exact Or.inr (mem_availableOrder.mpr h)

theorem nodup_trialOrder (m : AIProviderManager) (preferred : Option String) :
    (trialOrder m preferred).Nodup := by
  unfold trialOrder
  apply nodup_dedupAppend
  rcases preferred with _ | p
  · exact List.nodup_nil
  · by_cases hc : p ≠ "" ∧ p ∈ m.providers
    · simp [if_pos hc]
    · simp [if_neg hc]

theorem trialOrder_ne_nil {m : AIProviderManager} {preferred : Option String}
    (h : m.providers ≠ []) : trialOrder m preferred ≠ [] := by
  intro hempty
  rcases List.exists_mem_of_ne_nil _ h with ⟨n, hn⟩
  have hmem : n ∈ trialOrder m preferred := providers_sub_trialOrder hn
  rw [hempty] at hmem
  exact absurd hmem (List.not_mem_nil n)

/-- Value of the last_error variable after a run in which every listed
provider fails: each iteration overwrites it with the error derived from
that provider. -/
def finalLastError (behavior : String → GenOutcome) (order : List String)
    (le : Option AIProviderError) : Option AIProviderError :=
  order.foldl (fun _ n => derivedError n (behavior n)) le

theorem finalLastError_concat {behavior : String → GenOutcome} {t : List String}
    {last : String} {le : Option AIProviderError} :
    finalLastError behavior (t ++ [last]) le = derivedError last (behavior last) := by
  unfold finalLastError
  rw [List.foldl_append]
  rfl

theorem runFallback_step_ok {live : List String} {behavior : String → GenOutcome}
    {n : String} {rest : List String} {le : Option AIProviderError} {r : AIResponse}
    (hn : n ∈ live) (hb : behavior n = .ok r) :
    runFallback live behavior (n :: rest) le = ([n], .ok r) := by
  unfold runFallback
  rw [if_pos hn, hb]

theorem runFallback_step_provErr {live : List String} {behavior : String → GenOutcome}
    {n : String} {rest : List String} {le : Option AIProviderError} {e : AIProviderError}
    (hn : n ∈ live) (hb : behavior n = .provErr e) :
    runFallback live behavior (n :: rest) le =
      (n :: (runFallback live behavior rest (some e)).1,
        (runFallback live behavior rest (some e)).2) := by
  conv_lhs => unfold runFallback
  rw [if_pos hn, hb]

theorem runFallback_step_unexpected {live : List String} {behavior : String → GenOutcome}
    {n : String} {rest : List String} {le : Option AIProviderError} {msg : String}
    (hn : n ∈ live) (hb : behavior n = .unexpected msg) :
    runFallback live behavior (n :: rest) le =
      (n :: (runFallback live behavior rest (some ⟨msg, n, some ("unknown_error")⟩)).1,
        (runFallback live behavior rest (some ⟨msg, n, some ("unknown_error")⟩)).2) := by
  conv_lhs => unfold runFallback
  rw [if_pos hn, hb]

theorem runFallback_all_fail {live : List String} {behavior : String → GenOutcome} :
    ∀ {order : List String} {le : Option AIProviderError},
      (∀ x ∈ order, x ∈ live) →
      (∀ x ∈ order, outcomeOk (behavior x) = false) →
      runFallback live behavior order le =
        (order, .error (allFailedError (finalLastError behavior order le))) := by
  intro order
  induction order with
  | nil => intro le _ _; rfl
  | cons n t ih =>
      intro le hsub hf
      have hn : n ∈ live := hsub n (List.mem_cons_self ..)
      have hsub' : ∀ x ∈ t, x ∈ live := fun x hx => hsub x (List.mem_cons_of_mem _ hx)
      have hf' : ∀ x ∈ t, outcomeOk (behavior x) = false :=
        fun x hx => hf x (List.mem_cons_of_mem _ hx)
      have hfl : ∀ (e0 : Option AIProviderError),
          finalLastError behavior (n :: t) le =
            finalLastError behavior t (derivedError n (behavior n)) :=
        fun _ => rfl
      cases hb : behavior n with
      | ok r =>
          exfalso
          have hcontra := hf n (List.mem_cons_self ..)
          rw [hb] at hcontra
          simp [outcomeOk] at hcontra
      | provErr e =>
          rw [runFallback_step_provErr hn hb, ih hsub' hf', hfl none, hb]
          rfl
      | unexpected msg =>
          rw [runFallback_step_unexpected hn hb, ih hsub' hf', hfl none, hb]
          rfl

theorem runFallback_success {live : List String} {behavior : String → GenOutcome}
    {r : AIResponse} :
    ∀ (t : List String) {rest : List String} {n : String} {le : Option AIProviderError},
      (∀ x ∈ t ++ n :: rest, x ∈ live) →
      (∀ x ∈ t, outcomeOk (behavior x) = false) →
      behavior n = .ok r →
      runFallback live behavior (t ++ n :: rest) le = (t ++ [n], .ok r) := by
  intro t
  induction t with
  | nil =>
      intro rest n le hsub _ hn
      have hm : n ∈ live := hsub n (by simp)
      rw [List.nil_append, List.nil_append]
      exact runFallback_step_ok hm hn
  | cons x t ih =>
      intro rest n le hsub hf hn
      have hx : x ∈ live := hsub x (List.mem_cons_self ..)
      have hsub' : ∀ y ∈ t ++ n :: rest, y ∈ live :=
        fun y hy => hsub y (List.mem_cons_of_mem _ hy)
      have hf' : ∀ y ∈ t, outcomeOk (behavior y) = false :=
        fun y hy => hf y (List.mem_cons_of_mem _ hy)
      rw [List.cons_append, List.cons_append]
      cases hb : behavior x with
      | ok r' =>
          exfalso
          have hcontra := hf x (List.mem_cons_self ..)
          rw [hb] at hcontra
          simp [outcomeOk] at hcontra
      | provErr e => rw [runFallback_step_provErr hx hb, ih hsub' hf' hn]
      | unexpected msg => rw [runFallback_step_unexpected hx hb, ih hsub' hf' hn]

/-! Vendor payload models for the six provider adapters.  Optional fields
model dictionary keys or SDK attributes that the vendor may omit; reading
an absent mandatory key raises, which the adapters either guard against or
let their generic exception handler catch. -/

/-- Message object inside an OpenAI chat choice; the content attribute may
be null. -/
structure OpenAIMessage where
  content : Option String
deriving DecidableEq

/-- One choice of an OpenAI chat completion. -/
structure OpenAIChoice where
  message : OpenAIMessage
  finishReason : Option String
deriving DecidableEq

/-- Usage block of an OpenAI chat completion; the three counts are
independent vendor-reported numbers. -/
structure OpenAIUsage where
  promptTokens : Nat
  completionTokens : Nat
  totalTokens : Nat
deriving DecidableEq

/-- OpenAI chat completion response. -/
structure OpenAIChatResponse where
  choices : List OpenAIChoice
  usage : Option OpenAIUsage
  id : String
deriving DecidableEq

/-- One content block of an Anthropic message response. -/
structure AnthropicContentBlock where
  text : String
deriving DecidableEq

/-- Usage block of an Anthropic message response. -/
structure AnthropicUsage where
  inputTokens : Nat
  outputTokens : Nat
deriving DecidableEq

/-- Anthropic message response. -/
structure AnthropicResponse where
  content : List AnthropicContentBlock
  usage : Option AnthropicUsage
  stopReason : Option String
  id : String
deriving DecidableEq

/-- Usage metadata of a Google generate-content response. -/
structure GoogleUsageMetadata where
  promptTokenCount : Nat
  candidatesTokenCount : Nat
  totalTokenCount : Nat
deriving DecidableEq

/-- One candidate of a Google generate-content response; only the finish
reason name is read. -/
structure GoogleCandidate where
  finishReasonName : String
deriving DecidableEq

/-- Google generate-content response; text is optional because the SDK
attribute can be empty or missing. -/
structure GoogleResponse where
  text : Option String
  usageMetadata : Option GoogleUsageMetadata
  candidates : List GoogleCandidate
deriving DecidableEq

/-- Usage dictionary of an OpenRouter or XAI JSON body; each key may be
absent and is read with a zero default. -/
structure ORUsage where
  promptTokens : Option Nat
  completionTokens : Option Nat
  totalTokens : Option Nat
deriving DecidableEq

/-- Message object of an OpenRouter or XAI choice; absent keys model
malformed bodies whose access raises KeyError. -/
structure ORMessage where
  content : Option String
deriving DecidableEq

/-- One choice of an OpenRouter or XAI JSON body. -/
structure ORChoice where
  message : Option ORMessage
  finishReason : Option String
deriving DecidableEq

/-- Parsed JSON body of an OpenRouter or XAI chat completion. -/
structure ORData where
  errorField : Option String
  choices : Option (List ORChoice)
  usage : Option ORUsage
  id : Option String
deriving DecidableEq

/-- One entry of the Ollama tags listing; the name key may be absent, in
which case reading it raises KeyError. -/
structure OllamaTagEntry where
  name : Option String
deriving DecidableEq

/-- Parsed JSON body of the Ollama tags endpoint. -/
structure OllamaTags where
  models : List OllamaTagEntry
deriving DecidableEq

/-- Parsed JSON body of an Ollama generate response; every field is read
with a get and a default. -/
structure OllamaGenData where
  errorField : Option String
  response : Option String
  promptEvalCount : Option Nat
  evalCount : Option Nat
  done : Bool
deriving DecidableEq

/-- Truthiness of an optional string, as Python bool renders it. -/
def truthyOptStr : Option String → Bool
  | none => false
  | some s => decide (s ≠ "")

/-- Lookup of a usage key in the normalized usage dictionary. -/
def lookupUsage (k : String) (u : List (String × Nat)) : Option Nat :=
  (u.find? (fun p => p.1 == k)).map (fun p => p.2)

/-- The claim predicate on a normalized usage dictionary: the three fields
are present and the total equals prompt plus completion. -/
def usageSumOK (u : List (String × Nat)) : Bool :=
  match lookupUsage ("prompt_tokens") u, lookupUsage ("completion_tokens") u,
      lookupUsage ("total_tokens") u with
  | some p, some c, some t => decide (t = p + c)
  | _, _, _ => false

/-- Usage dictionary built by the OpenAI adapter: each field copied from
the vendor usage block when present, otherwise zero. -/
def openaiUsageDict (u : Option OpenAIUsage) : List (String × Nat) :=
  [(("prompt_tokens"), match u with | some x => x.promptTokens | none => 0),
   (("completion_tokens"), match u with | some x => x.completionTokens | none => 0),
   (("total_tokens"), match u with | some x => x.totalTokens | none => 0)]

/-- Success path of OpenAIProvider.generate_text: reading choices at index
zero raises when the list is empty, otherwise the normalized response is
built. -/
def openai_generate_text (model : String) (r : OpenAIChatResponse) :
    Except String AIResponse :=
  match r.choices.head? with
  | none => .error ("IndexError: choices")
  | some c =>
      .ok { content := c.message.content
            provider := ("openai")
            model := model
            usage := openaiUsageDict r.usage
            finishReason := c.finishReason }

/-- Usage dictionary built by the Anthropic adapter: input and output
token counts copied when usage is present, and the total computed as
their sum. -/
def anthropicUsageDict (u : Option AnthropicUsage) : List (String × Nat) :=
  [(("prompt_tokens"), match u with | some x => x.inputTokens | none => 0),
   (("completion_tokens"), match u with | some x => x.outputTokens | none => 0),
   (("total_tokens"), match u with | some x => x.inputTokens + x.outputTokens | none => 0)]

/-- Success path of AnthropicProvider.generate_text: the content access is
guarded by a truthiness check, so it never raises. -/
def anthropic_generate_text (model : String) (r : AnthropicResponse) : AIResponse :=
  { content := some (match r.content.head? with | some b => b.text | none => "")
    provider := ("anthropic")
    model := model
    usage := anthropicUsageDict r.usage
    finishReason := r.stopReason }

/-- Usage dictionary built by the Google adapter: the three vendor counts
when usage metadata is present, otherwise an empty dictionary. -/
def googleUsageDict (u : Option GoogleUsageMetadata) : List (String × Nat) :=
  match u with
  | some x =>
      [(("prompt_tokens"), x.promptTokenCount),
       (("completion_tokens"), x.candidatesTokenCount),
       (("total_tokens"), x.totalTokenCount)]
  | none => []

/-- Success path of GoogleProvider.generate_text. -/
def google_generate_text (model : String) (r : GoogleResponse) : AIResponse :=
  { content := some (match r.text with | some s => s | none => "")
    provider := ("google")
    model := model
    usage := googleUsageDict r.usageMetadata
    finishReason := (r.candidates.head?).map (fun c => c.finishReasonName) }

/-- Usage dictionary built by the OpenRouter and XAI adapters: each key
read from the vendor usage dictionary with a zero default. -/
def orUsageDict (u : Option ORUsage) : List (String × Nat) :=
  [(("prompt_tokens"), match u with | some x => x.promptTokens.getD 0 | none => 0),
   (("completion_tokens"), match u with | some x => x.completionTokens.getD 0 | none => 0),
   (("total_tokens"), match u with | some x => x.totalTokens.getD 0 | none => 0)]

/-- Shared body of the OpenRouter and XAI generate_text success paths: the
in-body error key raises api_error, and a missing or empty choices list or
a missing message or content key raises, caught by the generic handler. -/
def orGenerateBody (providerName model : String) (d : ORData) :
    Except AIProviderError AIResponse :=
  match d.errorField with
  | some e =>
      .error ⟨providerName ++ (" API error: ") ++ e, providerName, some ("api_error")⟩
  | none =>
      match d.choices with
      | none => .error ⟨("KeyError: choices"), providerName, some ("unknown_error")⟩
      | some [] => .error ⟨("IndexError: choices"), providerName, some ("unknown_error")⟩
      | some (c :: _) =>
          match c.message with
          | none => .error ⟨("KeyError: message"), providerName, some ("unknown_error")⟩
          | some msg =>
              match msg.content with
              | none => .error ⟨("KeyError: content"), providerName, some ("unknown_error")⟩
              | some s =>
                  .ok { content := some s
                        provider := providerName
                        model := model
                        usage := orUsageDict d.usage
                        finishReason := c.finishReason }

/-- OpenRouterProvider.generate_text success path. -/
def openrouter_generate_text (model : String) (d : ORData) :
    Except AIProviderError AIResponse :=
  orGenerateBody ("openrouter") model d

/-- XAIProvider.generate_text success path. -/
def xai_generate_text (model : String) (d : ORData) :
    Except AIProviderError AIResponse :=
  orGenerateBody ("xai") model d

/-- Usage dictionary built by the Ollama adapter: prompt and completion
counts read with zero defaults, and the total computed as their sum. -/
def ollamaUsageDict (d : OllamaGenData) : List (String × Nat) :=
  [(("prompt_tokens"), d.promptEvalCount.getD 0),
   (("completion_tokens"), d.evalCount.getD 0),
   (("total_tokens"), d.promptEvalCount.getD 0 + d.evalCount.getD 0)]

/-- OllamaProvider.generate_text on a parsed body: the in-body error key
raises api_error, otherwise the normalized response is built with every
field defaulted. -/
def ollama_generate_text (model : String) (d : OllamaGenData) :
    Except AIProviderError AIResponse :=
  match d.errorField with
  | some e => .error ⟨("Ollama API error: ") ++ e, ("ollama"), some ("api_error")⟩
  | none =>
      .ok { content := some (d.response.getD "")
            provider := ("ollama")
            model := model
            usage := ollamaUsageDict d
            finishReason := some (if d.done then ("stop") else ("length")) }

/-! Health checks.  Each body runs inside one try block in the source;
every suspension point that can raise is injected as an Except value, and
any error anywhere yields false. -/

/-- OpenAIProvider.health_check: lazy initialization, one minimal chat
call, then truthiness of the first choice content; reading an empty choice
list raises and is caught. -/
def openai_health_check (needsInit : Bool) (initRes : Except String Unit)
    (callRes : Except String OpenAIChatResponse) : Bool :=
  match (if needsInit then initRes else .ok ()) with
  | .error _ => false
  | .ok _ =>
      match callRes with
      | .error _ => false
      | .ok r =>
          match r.choices.head? with
          | none => false
          | some c => truthyOptStr c.message.content

/-- AnthropicProvider.health_check: the content check short-circuits on an
empty list, so extraction never raises. -/
def anthropic_health_check (needsInit : Bool) (initRes : Except String Unit)
    (callRes : Except String AnthropicResponse) : Bool :=
  match (if needsInit then initRes else .ok ()) with
  | .error _ => false
  | .ok _ =>
      match callRes with
      | .error _ => false
      | .ok r =>
          match r.content.head? with
          | none => false
          | some b => decide (b.text ≠ "")

/-- GoogleProvider.health_check: truthiness of the response text. -/
def google_health_check (needsInit : Bool) (initRes : Except String Unit)
    (callRes : Except String GoogleResponse) : Bool :=
  match (if needsInit then initRes else .ok ()) with
  | .error _ => false
  | .ok _ =>
      match callRes with
      | .error _ => false
      | .ok r => truthyOptStr r.text

/-- Shared body of the OpenRouter and XAI health checks: the choices key
is read with a truthiness guard, and the nested message and content keys
raise when absent, caught by the surrounding handler. -/
def orHealthBody (d : ORData) : Bool :=
  match d.choices with
  | none => false
  | some [] => false
  | some (c :: _) =>
      match c.message with
      | none => false
      | some msg => truthyOptStr msg.content

/-- OpenRouterProvider.health_check. -/
def openrouter_health_check (needsInit : Bool) (initRes : Except String Unit)
    (callRes : Except String ORData) : Bool :=
  match (if needsInit then initRes else .ok ()) with
  | .error _ => false
  | .ok _ =>
      match callRes with
      | .error _ => false
      | .ok d => orHealthBody d

/-- XAIProvider.health_check, structurally identical to the OpenRouter
probe. -/
def xai_health_check (needsInit : Bool) (initRes : Except String Unit)
    (callRes : Except String ORData) : Bool :=
  match (if needsInit then initRes else .ok ()) with
  | .error _ => false
  | .ok _ =>
      match callRes with
      | .error _ => false
      | .ok d => orHealthBody d

/-- Collect the name of every tag entry; an entry without a name key
raises KeyError inside the comprehension. -/
def collectTagNames : List OllamaTagEntry → Except String (List String)
  | [] => .ok []
  | e :: rest =>
      match e.name with
      | none => .error ("KeyError: name")
      | some s =>
          match collectTagNames rest with
          | .error m => .error m
          | .ok l => .ok (s :: l)

/-- OllamaProvider.health_check: list the local models and test whether
the configured model appears among them. -/
def ollama_health_check (model : String) (needsInit : Bool) (initRes : Except String Unit)
    (callRes : Except String OllamaTags) : Bool :=
  match (if needsInit then initRes else .ok ()) with
  | .error _ => false
  | .ok _ =>
      match callRes with
      | .error _ => false
      | .ok tags =>
          match collectTagNames tags.models with
          | .error _ => false
          | .ok names => decide (model ∈ names)

/-! Provider initialization.  Each adapter wraps client construction in a
try block and re-raises any exception as an AIProviderError built with
only a message and the provider name, leaving the error code at its
None default. -/

/-- OpenAIProvider client construction. -/
def openaiInitClient (construct : Except String Unit) : Except AIProviderError Bool :=
  match construct with
  | .ok _ => .ok true
  | .error m => .error ⟨("Failed to initialize OpenAI client: ") ++ m, ("openai"), none⟩

/-- AnthropicProvider client construction. -/
def anthropicInitClient (construct : Except String Unit) : Except AIProviderError Bool :=
  match construct with
  | .ok _ => .ok true
  | .error m => .error ⟨("Failed to initialize Anthropic client: ") ++ m, ("anthropic"), none⟩

/-- GoogleProvider client construction. -/
def googleInitClient (construct : Except String Unit) : Except AIProviderError Bool :=
  match construct with
  | .ok _ => .ok true
  | .error m => .error ⟨("Failed to initialize Google client: ") ++ m, ("google"), none⟩

/-- OpenRouterProvider client construction. -/
def openrouterInitClient (construct : Except String Unit) : Except AIProviderError Bool :=
  match construct with
  | .ok _ => .ok true
  | .error m => .error ⟨("Failed to initialize OpenRouter client: ") ++ m, ("openrouter"), none⟩

/-- XAIProvider client construction. -/
def xaiInitClient (construct : Except String Unit) : Except AIProviderError Bool :=
  match construct with
  | .ok _ => .ok true
  | .error m => .error ⟨("Failed to initialize XAI client: ") ++ m, ("xai"), none⟩

/-- OllamaProvider client construction. -/
def ollamaInitClient (construct : Except String Unit) : Except AIProviderError Bool :=
  match construct with
  | .ok _ => .ok true
  | .error m => .error ⟨("Failed to initialize Ollama client: ") ++ m, ("ollama"), none⟩

/-- The leading segment of the trial order described by the specification:
the preferred provider exactly when it is live. -/
def prefList (m : AIProviderManager) (preferred : Option String) : List String :=
  match preferred with
  | some p => if p ∈ m.providers then [p] else []
  | none => []

/-- Modelled from the wording of the specification, for comparison with
trialOrder: the preferred provider first when live, then the live
providers in priority order, then the live providers absent from the
priority list, with the preferred provider removed from both tails. -/
def claimedOrder (m : AIProviderManager) (preferred : Option String) : List String :=
  prefList m preferred
    ++ m.providerPriority.filter
        (fun n => decide (n ∈ m.providers) && decide (n ∉ prefList m preferred))
    ++ m.providers.filter
        (fun n => decide (n ∉ m.providerPriority) && decide (n ∉ prefList m preferred))

theorem nodup_prefList (m : AIProviderManager) (preferred : Option String) :
    (prefList m preferred).Nodup := by
  unfold prefList
  rcases preferred with _ | p
  · exact List.nodup_nil
  · by_cases hp : p ∈ m.providers
    · simp [if_pos hp]
    · simp [if_neg hp]

theorem availableOrder_shape {m : AIProviderManager}
    (hnd : m.providers.Nodup) :
    availableOrder m =
      m.providerPriority.filter (fun n => decide (n ∈ m.providers))
        ++ m.providers.filter (fun n => decide (n ∉ m.providerPriority)) := by
  unfold availableOrder
  rw [dedupAppend_eq_append hnd]
  congr 1
  apply List.filter_congr
  intro x hx
  rw [decide_eq_decide]
  simp only [List.mem_filter, decide_eq_true_eq]
  constructor
  · intro hnot hmem
    exact hnot ⟨hmem, hx⟩
  · intro hnot hmem
    exact hnot hmem.1

theorem nodup_availableOrder {m : AIProviderManager} (hnd : m.providers.Nodup)
    (hpnd : m.providerPriority.Nodup) : (availableOrder m).Nodup := by
  rw [availableOrder_shape hnd]
  rw [List.nodup_append]
  refine ⟨hpnd.filter _, hnd.filter _, ?_⟩
  intro x hx1 hx2
  have h1 : x ∈ m.providerPriority := (List.mem_filter.mp hx1).1
  have h2 : x ∉ m.providerPriority :=
    of_decide_eq_true (List.mem_filter.mp hx2).2
  exact h2 h1

theorem trialOrder_base_eq {m : AIProviderManager} {preferred : Option String}
    (hemp : ("") ∉ m.providers) :
    trialOrder m preferred = dedupAppend (prefList m preferred) (availableOrder m) := by
  unfold trialOrder prefList
  rcases preferred with _ | p
  · rfl
  · show dedupAppend (if p ≠ "" ∧ p ∈ m.providers then [p] else []) (availableOrder m) =
      dedupAppend (if p ∈ m.providers then [p] else []) (availableOrder m)
    by_cases hp : p ∈ m.providers
    · have hpe : p ≠ "" := fun h => hemp (h ▸ hp)
      rw [if_pos ⟨hpe, hp⟩, if_pos hp]
    · have hc : ¬(p ≠ "" ∧ p ∈ m.providers) := fun h => hp h.2
      rw [if_neg hc, if_neg hp]

theorem trialOrder_shape {m : AIProviderManager} {preferred : Option String}
    (hnd : m.providers.Nodup) (hpnd : m.providerPriority.Nodup)
    (hemp : ("") ∉ m.providers) :
    trialOrder m preferred = claimedOrder m preferred := by
  rw [trialOrder_base_eq hemp,
    dedupAppend_eq_append (nodup_availableOrder hnd hpnd),
    availableOrder_shape hnd]
  unfold claimedOrder
  rw [List.filter_append, List.append_assoc]
  congr 1
  congr 1
  · rw [List.filter_filter]
    apply List.filter_congr
    intro x _
    rw [Bool.and_comm]
  · rw [List.filter_filter]
    apply List.filter_congr
    intro x _
    rw [Bool.and_comm]

theorem runFallback_ok_inv {live : List String} {behavior : String → GenOutcome}
    {r : AIResponse} :
    ∀ {order : List String} {le : Option AIProviderError},
      (∀ x ∈ order, x ∈ live) →
      (runFallback live behavior order le).2 = .ok r →
      ∃ t n rest, order = t ++ n :: rest ∧
        (∀ x ∈ t, outcomeOk (behavior x) = false) ∧
        behavior n = .ok r ∧
        (runFallback live behavior order le).1 = t ++ [n] := by
  intro order
  induction order with
  | nil =>
      intro le _ h
      simp [runFallback, allFailedError] at h
  | cons n rest ih =>
      intro le hsub h
      have hn : n ∈ live := hsub n (List.mem_cons_self ..)
      have hsub' : ∀ x ∈ rest, x ∈ live := fun x hx => hsub x (List.mem_cons_of_mem _ hx)
      cases hb : behavior n with
      | ok r' =>
          rw [runFallback_step_ok hn hb] at h ⊢
          have hr : r' = r := by simpa using h
          exact ⟨[], n, rest, rfl, by intro x hx; simp at hx, hr ▸ hb, rfl⟩
      | provErr e =>
          rw [runFallback_step_provErr hn hb] at h ⊢
          rcases ih hsub' h with ⟨t, n', rest', heq, hf, hok, htr⟩
          refine ⟨n :: t, n', rest', by rw [List.cons_append, heq], ?_, hok, ?_⟩
          · intro x hx
            rcases List.mem_cons.mp hx with rfl | hx
            · rw [hb]; rfl
            · exact hf x hx
          · simp only [htr, List.cons_append]
      | unexpected msg =>
          rw [runFallback_step_unexpected hn hb] at h ⊢
          rcases ih hsub' h with ⟨t, n', rest', heq, hf, hok, htr⟩
          refine ⟨n :: t, n', rest', by rw [List.cons_append, heq], ?_, hok, ?_⟩
          · intro x hx
            rcases List.mem_cons.mp hx with rfl | hx
            · rw [hb]; rfl
            · exact hf x hx
          · simp only [htr, List.cons_append]

theorem mgrInit_inited {m : AIProviderManager} {f : String → Bool}
    (h : m.inited = true) : mgrInit f m = m := by
  unfold mgrInit
  rw [h]
  rfl

theorem mgrInit_priority {m : AIProviderManager} {f : String → Bool} :
    (mgrInit f m).providerPriority = m.providerPriority := by
  unfold mgrInit
  by_cases h : m.inited
  · rw [if_pos h]
  · rw [if_neg h]

theorem generate_text_eq {m : AIProviderManager} {f : String → Bool}
    {behavior : String → GenOutcome} {preferred : Option String}
    (hinit : m.inited = true) (hlive : m.providers ≠ []) :
    generate_text f m behavior preferred =
      runFallback m.providers behavior (trialOrder m preferred) none := by
  unfold generate_text
  rw [mgrInit_inited hinit]
  exact if_neg hlive

theorem runFallback_trace_isPre {live : List String} {behavior : String → GenOutcome} :
    ∀ {order : List String} {le : Option AIProviderError},
      (∀ x ∈ order, x ∈ live) →
      (runFallback live behavior order le).1 <+: order := by
  intro order
  induction order with
  | nil => intro le _; exact List.nil_prefix
  | cons n rest ih =>
      intro le hsub
      have hn : n ∈ live := hsub n (List.mem_cons_self ..)
      have hsub' : ∀ x ∈ rest, x ∈ live := fun x hx => hsub x (List.mem_cons_of_mem _ hx)
      cases hb : behavior n with
      | ok r =>
          rw [runFallback_step_ok hn hb]
          exact ⟨rest, rfl⟩
      | provErr e =>
          rw [runFallback_step_provErr hn hb]
          rcases @ih (some e) hsub' with ⟨s, hs⟩
          exact ⟨s, by rw [List.cons_append, hs]⟩
      | unexpected msg =>
          rw [runFallback_step_unexpected hn hb]
          rcases @ih (some ⟨msg, n, some ("unknown_error")⟩) hsub' with ⟨s, hs⟩
          exact ⟨s, by rw [List.cons_append, hs]⟩

theorem preferredWalk_some {providers : List String} {health : String → Except String Bool} :
    ∀ {prio : List String} {n : String},
      preferredWalk providers health prio = some n → n ∈ prio ∧ n ∈ providers := by
  intro prio
  induction prio with
  | nil => intro n h; simp [preferredWalk] at h
  | cons x rest ih =>
      intro n h
      unfold preferredWalk at h
      by_cases hx : x ∈ providers
      · rw [if_pos hx] at h
        cases hh : health x with
        | error e =>
            rw [hh] at h
            rcases ih h with ⟨h1, h2⟩
            exact ⟨List.mem_cons_of_mem _ h1, h2⟩
        | ok b =>
            cases b with
            | true =>
                rw [hh] at h
                have : x = n := by simpa using h
                exact ⟨this ▸ List.mem_cons_self .., this ▸ hx⟩
            | false =>
                rw [hh] at h
                rcases ih h with ⟨h1, h2⟩
                exact ⟨List.mem_cons_of_mem _ h1, h2⟩
      · rw [if_neg hx] at h
        rcases ih h with ⟨h1, h2⟩
        exact ⟨List.mem_cons_of_mem _ h1, h2⟩

theorem mem_initFold {f : String → Bool} :
    ∀ (configs : List (String × ProviderConfig)) (acc : List String) (n : String),
      n ∈ configs.foldl
          (fun acc nc => if registersOnInit f nc then appendIfNew acc nc.1 else acc) acc ↔
        n ∈ acc ∨ ∃ c, (n, c) ∈ configs ∧ registersOnInit f (n, c) = true := by
  intro configs
  induction configs with
  | nil => intro acc n; simp
  | cons nc t ih =>
      intro acc n
      obtain ⟨name, cfg⟩ := nc
      show n ∈ t.foldl _ (if registersOnInit f (name, cfg) then appendIfNew acc name else acc) ↔ _
      by_cases hreg : registersOnInit f (name, cfg) = true
      · rw [if_pos hreg, ih]
        rw [mem_appendIfNew]
        constructor
        · rintro ((hacc | rfl) | ⟨c, hc, hcr⟩)
          · exact Or.inl hacc
          · exact Or.inr ⟨cfg, List.mem_cons_self .., hreg⟩
          · exact Or.inr ⟨c, List.mem_cons_of_mem _ hc, hcr⟩
        · rintro (hacc | ⟨c, hc, hcr⟩)
          · exact Or.inl (Or.inl hacc)
          · rcases List.mem_cons.mp hc with heq | hc
            · have hn : n = name := congrArg Prod.fst heq
              exact Or.inl (Or.inr hn)
            · exact Or.inr ⟨c, hc, hcr⟩
      · rw [if_neg hreg, ih]
        constructor
        · rintro (hacc | ⟨c, hc, hcr⟩)
          · exact Or.inl hacc
          · exact Or.inr ⟨c, List.mem_cons_of_mem _ hc, hcr⟩
        · rintro (hacc | ⟨c, hc, hcr⟩)
          · exact Or.inl hacc
          · rcases List.mem_cons.mp hc with heq | hc
            · exfalso
              apply hreg
              have h1 : n = name := congrArg Prod.fst heq
              have h2 : c = cfg := congrArg Prod.snd heq
              rw [← h1, ← h2]
              exact hcr
            · exact Or.inr ⟨c, hc, hcr⟩

instance {ε α : Type} [DecidableEq ε] [DecidableEq α] :
    DecidableEq (Except ε α) := fun a b =>
  match a, b with
  | .error x, .error y => decidable_of_iff (x = y) (by simp)
  | .error _, .ok _ => .isFalse (by simp)
  | .ok _, .error _ => .isFalse (by simp)
  | .ok x, .ok y => decidable_of_iff (x = y) (by simp)

/-- Manager fixture used by the witnesses: two live providers a and b with
priority b before a, mirroring the worked example of the specification. -/
def mW : AIProviderManager :=
  { providers := [("a"), ("b")]
    providerConfigs := []
    providerPriority := [("b"), ("a")]
    inited := true }

/-- Response fixture returned by the succeeding witness provider. -/
def respA : AIResponse :=
  { content := some ("hi")
    provider := ("a")
    model := ("m")
    usage := []
    finishReason := none }

/-- Witness behavior: provider b raises an api_error, every other provider
succeeds. -/
def behaviorW : String → GenOutcome := fun n =>
  if n = ("b") then GenOutcome.provErr ⟨("boom"), ("b"), some ("api_error")⟩
  else GenOutcome.ok respA

/-- Witness behavior: provider b raises an api_error, every other provider
raises an unexpected exception. -/
def behaviorF : String → GenOutcome := fun n =>
  if n = ("b") then GenOutcome.provErr ⟨("bfail"), ("b"), some ("api_error")⟩
  else GenOutcome.unexpected ("afail")

/-- Witness behavior: provider b raises an auth_error, every other
provider succeeds. -/
def behaviorC4 : String → GenOutcome := fun n =>
  if n = ("b") then GenOutcome.provErr ⟨("bad key"), ("b"), some ("auth_error")⟩
  else GenOutcome.ok respA

/-- C1: on an initialized manager with at least one live provider, the
trial order built by generate_text is exactly the order the specification
describes: the preferred provider first if and only if it is live, then
the remaining live providers in priority-list order, then the live
providers absent from the priority list, with no name appearing twice, and
the providers actually attempted form a leading segment of that order. -/
theorem c1_trial_order (m : AIProviderManager) (preferred : Option String)
    (behavior : String → GenOutcome) (initFails : String → Bool)
    (hinit : m.inited = true) (hlive : m.providers ≠ [])
    (hnd : m.providers.Nodup) (hpnd : m.providerPriority.Nodup)
    (hemp : ("") ∉ m.providers) :
    trialOrder m preferred = claimedOrder m preferred ∧
    (trialOrder m preferred).Nodup ∧
    (generate_text initFails m behavior preferred).1 <+: trialOrder m preferred := by
  refine ⟨trialOrder_shape hnd hpnd hemp, nodup_trialOrder m preferred, ?_⟩
  rw [generate_text_eq hinit hlive]
  exact runFallback_trace_isPre (fun x hx => mem_trialOrder_sub hx)

theorem c1_trial_order_witness :
    (mW.inited = true ∧ mW.providers ≠ [] ∧ mW.providers.Nodup ∧
      mW.providerPriority.Nodup ∧ ("") ∉ mW.providers) ∧
    trialOrder mW none = [("b"), ("a")] ∧
    trialOrder mW (some ("a")) = [("a"), ("b")] ∧
    (trialOrder mW none = claimedOrder mW none ∧ (trialOrder mW none).Nodup ∧
      (generate_text (fun _ => false) mW (fun _ => GenOutcome.unexpected ("x")) none).1 <+:
        trialOrder mW none) :=
  ⟨⟨rfl, by decide, by decide, by decide, by decide⟩, by decide, by decide,
    c1_trial_order mW none (fun _ => GenOutcome.unexpected ("x")) (fun _ => false)
      rfl (by decide) (by decide) (by decide) (by decide)⟩

/-- C2: whenever generate_text returns a successful response, that
response was produced by the first provider in the trial order whose call
succeeded, every provider attempted before it failed, and the attempt
trace stops at that provider, so no later provider is invoked. -/
theorem c2_first_success (m : AIProviderManager) (preferred : Option String)
    (behavior : String → GenOutcome) (initFails : String → Bool) (r : AIResponse)
    (hinit : m.inited = true) (hlive : m.providers ≠ [])
    (hok : (generate_text initFails m behavior preferred).2 = .ok r) :
    ∃ t n rest, trialOrder m preferred = t ++ n :: rest ∧
      (∀ x ∈ t, outcomeOk (behavior x) = false) ∧
      behavior n = .ok r ∧
      (generate_text initFails m behavior preferred).1 = t ++ [n] := by
  rw [generate_text_eq hinit hlive] at hok ⊢
  exact runFallback_ok_inv (fun x hx => mem_trialOrder_sub hx) hok

theorem c2_first_success_witness :
    ((generate_text (fun _ => false) mW behaviorW none).2 = Except.ok respA) ∧
    (∃ t n rest, trialOrder mW none = t ++ n :: rest ∧
      (∀ x ∈ t, outcomeOk (behaviorW x) = false) ∧
      behaviorW n = .ok respA ∧
      (generate_text (fun _ => false) mW behaviorW none).1 = t ++ [n]) :=
  ⟨by decide,
    c2_first_success mW none behaviorW (fun _ => false) respA rfl (by decide) (by decide)⟩

/-- C3: when every provider in the trial order fails, generate_text
attempts the whole order and raises the terminal error: provider tag
manager, code all_providers_failed, and a message embedding the error
derived from the last provider attempted. -/
theorem c3_all_providers_failed (m : AIProviderManager) (preferred : Option String)
    (behavior : String → GenOutcome) (initFails : String → Bool)
    (hinit : m.inited = true) (hlive : m.providers ≠ [])
    (hfail : ∀ n ∈ trialOrder m preferred, outcomeOk (behavior n) = false) :
    ∃ t last, trialOrder m preferred = t ++ [last] ∧
      generate_text initFails m behavior preferred =
        (trialOrder m preferred,
          .error ⟨("All AI providers failed. Last error: ") ++
              lastErrorText (derivedError last (behavior last)),
            ("manager"), some ("all_providers_failed")⟩) := by
  have hne : trialOrder m preferred ≠ [] := trialOrder_ne_nil hlive
  rcases List.eq_nil_or_concat (trialOrder m preferred) with hnil | ⟨t, last, heq⟩
  · exact absurd hnil hne
  · rw [List.concat_eq_append] at heq
    refine ⟨t, last, heq, ?_⟩
    rw [generate_text_eq hinit hlive,
      runFallback_all_fail (fun x hx => mem_trialOrder_sub hx) hfail]
    rw [heq, finalLastError_concat]
    rfl

theorem c3_all_providers_failed_witness :
    (∀ n ∈ trialOrder mW none, outcomeOk (behaviorF n) = false) ∧
    (generate_text (fun _ => false) mW behaviorF none).2 =
      Except.error ⟨("All AI providers failed. Last error: afail"),
        ("manager"), some ("all_providers_failed")⟩ ∧
    (∃ t last, trialOrder mW none = t ++ [last] ∧
      generate_text (fun _ => false) mW behaviorF none =
        (trialOrder mW none,
          .error ⟨("All AI providers failed. Last error: ") ++
              lastErrorText (derivedError last (behaviorF last)),
            ("manager"), some ("all_providers_failed")⟩)) :=
  ⟨by decide, by decide,
    c3_all_providers_failed mW none behaviorF (fun _ => false) rfl (by decide) (by decide)⟩

/-- C4: a provider failing with an auth_error does not stop the fallback
loop: when the trial order contains b before a, everything up to b and
between them fails, b raises an auth_error, and a succeeds, generate_text
returns the response of a, attempts b exactly once, and a appears in the
attempt trace. -/
theorem c4_auth_error_continue (m : AIProviderManager) (preferred : Option String)
    (behavior : String → GenOutcome) (initFails : String → Bool)
    (l1 l2 l3 : List String) (b a : String) (e : AIProviderError) (r : AIResponse)
    (hinit : m.inited = true) (hlive : m.providers ≠ [])
    (horder : trialOrder m preferred = l1 ++ b :: l2 ++ a :: l3)
    (hb : behavior b = .provErr e) (hauth : e.errorCode = some ("auth_error"))
    (hpre : ∀ x ∈ l1 ++ b :: l2, outcomeOk (behavior x) = false)
    (ha : behavior a = .ok r) :
    (generate_text initFails m behavior preferred).2 = .ok r ∧
    ((generate_text initFails m behavior preferred).1).count b = 1 ∧
    a ∈ (generate_text initFails m behavior preferred).1 := by
  have horder2 : trialOrder m preferred = (l1 ++ b :: l2) ++ a :: l3 := by
    rw [horder, List.append_assoc, List.cons_append]
  have hsub : ∀ x ∈ (l1 ++ b :: l2) ++ a :: l3, x ∈ m.providers := by
    intro x hx
    exact mem_trialOrder_sub (horder2 ▸ hx)
  have hg : generate_text initFails m behavior preferred = ((l1 ++ b :: l2) ++ [a], .ok r) := by
    rw [generate_text_eq hinit hlive, horder2]
    exact runFallback_success (l1 ++ b :: l2) hsub hpre ha
  rw [hg]
  refine ⟨rfl, ?_, ?_⟩
  · have h1 : (trialOrder m preferred).Nodup := nodup_trialOrder m preferred
    rw [horder2] at h1
    have hsp : (l1 ++ b :: l2) ++ [a] <+: (l1 ++ b :: l2) ++ a :: l3 :=
      ⟨l3, by rw [List.append_assoc]; rfl⟩
    have hnd : ((l1 ++ b :: l2) ++ [a]).Nodup := List.Nodup.sublist hsp.sublist h1
    have hmemb : b ∈ (l1 ++ b :: l2) ++ [a] := by simp
    exact List.count_eq_one_of_mem hnd hmemb
  · simp

theorem c4_auth_error_continue_witness :
    behaviorC4 ("b") = GenOutcome.provErr ⟨("bad key"), ("b"), some ("auth_error")⟩ ∧
    ((generate_text (fun _ => false) mW behaviorC4 none).2 = Except.ok respA ∧
      ((generate_text (fun _ => false) mW behaviorC4 none).1).count ("b") = 1 ∧
      ("a") ∈ (generate_text (fun _ => false) mW behaviorC4 none).1) :=
  ⟨by decide,
    c4_auth_error_continue mW none behaviorC4 (fun _ => false) [] [] [] ("b") ("a")
      ⟨("bad key"), ("b"), some ("auth_error")⟩ respA rfl (by decide) (by decide)
      (by decide) rfl (by decide) (by decide)⟩

/-- Manager fixture holding only the default ollama configuration built by
configure_from_env when OLLAMA_API_KEY is absent. -/
def mC5 : AIProviderManager :=
  { providers := []
    providerConfigs := [(("ollama"), ollamaDefaultConfig ("llama3") none)]
    providerPriority := [("ollama")]
    inited := false }

/-- C5: evaluation of the code at the failing input.  The ollama
configuration with the default sentinel credential fails is_configured,
because the credential check in ProviderConfig.is_configured has no
local-provider exemption, so initialize skips ollama before ever
consulting OllamaProvider.is_available, which would have accepted it. -/
theorem c5_ollama_credential_not_exempt :
    (ollamaDefaultConfig ("llama3") none).is_configured = false ∧
    OllamaProvider.is_available = true ∧
    (mgrInit (fun _ => false) mC5).providers = [] ∧
    get_available_providers (fun _ => false) mC5 = [] :=
  ⟨by decide, rfl, by decide, by decide⟩

/-- Google payload fixture whose usage metadata is absent. -/
def gNoUsage : GoogleResponse :=
  { text := some ("hi"), usageMetadata := none, candidates := [] }

/-- C6 counterexample: on a successful Google generation whose vendor
payload omits usage metadata, the normalized usage dictionary is empty, so
the usage fields are absent rather than zero-filled and the total equation
has no witnesses. -/
theorem c6_counterexample :
    (google_generate_text ("gemini-1.5-pro") gNoUsage).usage = [] ∧
    lookupUsage ("prompt_tokens") (google_generate_text ("gemini-1.5-pro") gNoUsage).usage =
      none ∧
    usageSumOK (google_generate_text ("gemini-1.5-pro") gNoUsage).usage = false :=
  ⟨by decide, by decide, by decide⟩

/-- C6 amended: the Ollama and Anthropic adapters compute the total as the
sum of the two counts, so the sum identity holds on every success; the
OpenAI, OpenRouter and XAI adapters always emit the three usage fields,
zero-filled when the vendor omits usage, but copy the total from the
vendor instead of computing it; the Google adapter copies the vendor
counts when usage metadata is present and otherwise leaves the usage
dictionary empty. -/
theorem c6_usage_amended :
    (∀ (model : String) (d : OllamaGenData) (r : AIResponse),
        ollama_generate_text model d = .ok r → usageSumOK r.usage = true) ∧
    (∀ (model : String) (a : AnthropicResponse),
        usageSumOK (anthropic_generate_text model a).usage = true) ∧
    (∀ (model : String) (r : OpenAIChatResponse) (resp : AIResponse),
        openai_generate_text model r = .ok resp →
          (r.usage = none → usageSumOK resp.usage = true) ∧
          ∀ u, r.usage = some u →
            lookupUsage ("prompt_tokens") resp.usage = some u.promptTokens ∧
            lookupUsage ("completion_tokens") resp.usage = some u.completionTokens ∧
            lookupUsage ("total_tokens") resp.usage = some u.totalTokens) ∧
    (∀ (providerName model : String) (d : ORData) (resp : AIResponse),
        orGenerateBody providerName model d = .ok resp →
          (d.usage = none → usageSumOK resp.usage = true) ∧
          ∀ u, d.usage = some u →
            lookupUsage ("prompt_tokens") resp.usage = some (u.promptTokens.getD 0) ∧
            lookupUsage ("completion_tokens") resp.usage = some (u.completionTokens.getD 0) ∧
            lookupUsage ("total_tokens") resp.usage = some (u.totalTokens.getD 0)) ∧
    (∀ (model : String) (g : GoogleResponse),
        (g.usageMetadata = none → (google_generate_text model g).usage = []) ∧
        ∀ u, g.usageMetadata = some u →
          lookupUsage ("prompt_tokens") (google_generate_text model g).usage =
            some u.promptTokenCount ∧
          lookupUsage ("completion_tokens") (google_generate_text model g).usage =
            some u.candidatesTokenCount ∧
          lookupUsage ("total_tokens") (google_generate_text model g).usage =
            some u.totalTokenCount) := by
  refine ⟨?_, ?_, ?_, ?_, ?_⟩
  · intro model d r h
    unfold ollama_generate_text at h
    cases he : d.errorField with
    | some e => rw [he] at h; exact absurd h (by simp)
    | none =>
        rw [he] at h
        simp only [Except.ok.injEq] at h
        subst h
        simp [usageSumOK, ollamaUsageDict, lookupUsage, List.find?]
  · intro model a
    cases hu : a.usage with
    | none =>
        simp [anthropic_generate_text, anthropicUsageDict, hu, usageSumOK, lookupUsage,
          List.find?]
    | some u =>
        simp [anthropic_generate_text, anthropicUsageDict, hu, usageSumOK, lookupUsage,
          List.find?]
  · intro model r resp h
    unfold openai_generate_text at h
    cases hc : r.choices.head? with
    | none => rw [hc] at h; exact absurd h (by simp)
    | some c =>
        rw [hc] at h
        simp only [Except.ok.injEq] at h
        subst h
        constructor
        · intro hu
          simp [openaiUsageDict, hu, usageSumOK, lookupUsage, List.find?]
        · intro u hu
          simp [openaiUsageDict, hu, lookupUsage, List.find?]
  · intro providerName model d resp h
    unfold orGenerateBody at h
    split at h
    · exact absurd h (by simp)
    · split at h
      · exact absurd h (by simp)
      · exact absurd h (by simp)
      · split at h
        · exact absurd h (by simp)
        · split at h
          · exact absurd h (by simp)
          · simp only [Except.ok.injEq] at h
            subst h
            constructor
            · intro hu
              simp [orUsageDict, hu, usageSumOK, lookupUsage, List.find?]
            · intro u hu
              simp [orUsageDict, hu, lookupUsage, List.find?]
  · intro model g
    constructor
    · intro hu
      simp [google_generate_text, googleUsageDict, hu]
    · intro u hu
      simp [google_generate_text, googleUsageDict, hu, lookupUsage, List.find?]

/-- Ollama payload fixture with both token counts present. -/
def ollamaD : OllamaGenData :=
  { errorField := none
    response := some ("ok")
    promptEvalCount := some 3
    evalCount := some 4
    done := true }

/-- Normalized response produced by the ollama adapter on ollamaD. -/
def respOllama : AIResponse :=
  { content := some ("ok")
    provider := ("ollama")
    model := ("llama3")
    usage := [(("prompt_tokens"), 3), (("completion_tokens"), 4), (("total_tokens"), 7)]
    finishReason := some ("stop") }

theorem c6_usage_amended_witness :
    ollama_generate_text ("llama3") ollamaD = Except.ok respOllama ∧
    usageSumOK respOllama.usage = true :=
  ⟨by decide, c6_usage_amended.1 ("llama3") ollamaD respOllama (by decide)⟩

/-- Configuration fixture for a hosted provider with a plausible key. -/
def cfgOpenaiW : ProviderConfig :=
  { providerType := .openai
    apiKey := ("sk-test")
    model := ("gpt-4")
    baseUrl := none
    enabled := true
    timeout := 30
    maxRetries := 3 }

/-- Manager fixture with one live, configured provider. -/
def mC7 : AIProviderManager :=
  { providers := [("openai")]
    providerConfigs := [(("openai"), cfgOpenaiW)]
    providerPriority := [("openai")]
    inited := true }

/-- C7 counterexample: cleanup resets the initialized flag, so the next
get_available_providers lazily re-runs initialize against the retained
configuration and returns the re-registered provider instead of an empty
list. -/
theorem c7_counterexample :
    get_available_providers (fun _ => false) (cleanup mC7) = [("openai")] ∧
    get_available_providers (fun _ => false) (cleanup mC7) ≠ [] :=
  ⟨by decide, by decide⟩

/-- C7 amended: cleanup clears the live-provider map and resets the
initialized flag, and a subsequent get_available_providers re-initializes
from the retained configuration, so its result contains exactly the names
freshly registered from the configuration, independently of the
pre-cleanup live set; it is empty only when no configured entry passes the
registration checks. -/
theorem c7_cleanup_amended (m : AIProviderManager) (initFails : String → Bool) :
    (cleanup m).providers = [] ∧ (cleanup m).inited = false ∧
    (∀ n : String, n ∈ get_available_providers initFails (cleanup m) ↔
      ∃ c, (n, c) ∈ m.providerConfigs ∧ registersOnInit initFails (n, c) = true) := by
  refine ⟨rfl, rfl, ?_⟩
  intro n
  unfold get_available_providers
  rw [mem_availableOrder]
  show n ∈ m.providerConfigs.foldl
      (fun acc nc => if registersOnInit initFails nc then appendIfNew acc nc.1 else acc) [] ↔ _
  rw [mem_initFold m.providerConfigs [] n]
  simp

theorem c7_cleanup_amended_witness :
    (cleanup mC7).providers = [] ∧ (cleanup mC7).inited = false ∧
    (("openai") ∈ get_available_providers (fun _ => false) (cleanup mC7) ↔
      ∃ c, (("openai"), c) ∈ mC7.providerConfigs ∧
        registersOnInit (fun _ => false) (("openai"), c) = true) := by
  have h := c7_cleanup_amended mC7 (fun _ => false)
  exact ⟨h.1, h.2.1, h.2.2 ("openai")⟩

/-- C8: each health check is a total boolean: an injected failure at the
lazy-initialization stage or at the vendor call yields false, and on a
successful call the result is exactly the truthiness of the extracted
content, including false when the extraction itself would raise. -/
theorem c8_health_check_total :
    (∀ (e : String) (cr : Except String OpenAIChatResponse),
        openai_health_check true (Except.error e) cr = false) ∧
    (∀ (ni : Bool) (ir : Except String Unit) (e : String),
        openai_health_check ni ir (Except.error e) = false) ∧
    (∀ (ni : Bool) (ir : Except String Unit) (r : OpenAIChatResponse),
        r.choices = [] → openai_health_check ni ir (Except.ok r) = false) ∧
    (∀ (ni : Bool) (r : OpenAIChatResponse) (c : OpenAIChoice) (cs : List OpenAIChoice),
        r.choices = c :: cs →
        openai_health_check ni (Except.ok ()) (Except.ok r) =
          truthyOptStr c.message.content) ∧
    (∀ (e : String) (cr : Except String AnthropicResponse),
        anthropic_health_check true (Except.error e) cr = false) ∧
    (∀ (ni : Bool) (ir : Except String Unit) (e : String),
        anthropic_health_check ni ir (Except.error e) = false) ∧
    (∀ (ni : Bool) (r : AnthropicResponse),
        anthropic_health_check ni (Except.ok ()) (Except.ok r) =
          (match r.content.head? with
            | none => false
            | some b => decide (b.text ≠ ""))) ∧
    (∀ (e : String) (cr : Except String GoogleResponse),
        google_health_check true (Except.error e) cr = false) ∧
    (∀ (ni : Bool) (ir : Except String Unit) (e : String),
        google_health_check ni ir (Except.error e) = false) ∧
    (∀ (ni : Bool) (r : GoogleResponse),
        google_health_check ni (Except.ok ()) (Except.ok r) = truthyOptStr r.text) ∧
    (∀ (e : String) (cr : Except String ORData),
        openrouter_health_check true (Except.error e) cr = false) ∧
    (∀ (ni : Bool) (ir : Except String Unit) (e : String),
        openrouter_health_check ni ir (Except.error e) = false) ∧
    (∀ (ni : Bool) (d : ORData),
        openrouter_health_check ni (Except.ok ()) (Except.ok d) = orHealthBody d) ∧
    (∀ (e : String) (cr : Except String ORData),
        xai_health_check true (Except.error e) cr = false) ∧
    (∀ (ni : Bool) (ir : Except String Unit) (e : String),
        xai_health_check ni ir (Except.error e) = false) ∧
    (∀ (ni : Bool) (d : ORData),
        xai_health_check ni (Except.ok ()) (Except.ok d) = orHealthBody d) ∧
    (∀ (model e : String) (cr : Except String OllamaTags),
        ollama_health_check model true (Except.error e) cr = false) ∧
    (∀ (model : String) (ni : Bool) (ir : Except String Unit) (e : String),
        ollama_health_check model ni ir (Except.error e) = false) ∧
    (∀ (model : String) (ni : Bool) (tags : OllamaTags) (msg : String),
        collectTagNames tags.models = .error msg →
        ollama_health_check model ni (Except.ok ()) (Except.ok tags) = false) ∧
    (∀ (model : String) (ni : Bool) (tags : OllamaTags) (names : List String),
        collectTagNames tags.models = .ok names →
        ollama_health_check model ni (Except.ok ()) (Except.ok tags) =
          decide (model ∈ names)) := by
  refine ⟨?_, ?_, ?_, ?_, ?_, ?_, ?_, ?_, ?_, ?_, ?_, ?_, ?_, ?_, ?_, ?_, ?_, ?_, ?_, ?_⟩
  · intro e cr; rfl
  · intro ni ir e
    cases ni
    · rfl
    · cases ir with
      | error e2 => rfl
      | ok u => rfl
  · intro ni ir r h
    cases ni
    · simp [openai_health_check, h]
    · cases ir with
      | error e2 => rfl
      | ok u => simp [openai_health_check, h]
  · intro ni r c cs h
    cases ni
    · simp [openai_health_check, h]
    · simp [openai_health_check, h]
  · intro e cr; rfl
  · intro ni ir e
    cases ni
    · rfl
    · cases ir with
      | error e2 => rfl
      | ok u => rfl
  · intro ni r
    cases ni
    · rfl
    · rfl
  · intro e cr; rfl
  · intro ni ir e
    cases ni
    · rfl
    · cases ir with
      | error e2 => rfl
      | ok u => rfl
  · intro ni r
    cases ni
    · rfl
    · rfl
  · intro e cr; rfl
  · intro ni ir e
    cases ni
    · rfl
    · cases ir with
      | error e2 => rfl
      | ok u => rfl
  · intro ni d
    cases ni
    · rfl
    · rfl
  · intro e cr; rfl
  · intro ni ir e
    cases ni
    · rfl
    · cases ir with
      | error e2 => rfl
      | ok u => rfl
  · intro ni d
    cases ni
    · rfl
    · rfl
  · intro model e cr; rfl
  · intro model ni ir e
    cases ni
    · rfl
    · cases ir with
      | error e2 => rfl
      | ok u => rfl
  · intro model ni tags msg h
    cases ni
    · simp [ollama_health_check, h]
    · simp [ollama_health_check, h]
  · intro model ni tags names h
    cases ni
    · simp [ollama_health_check, h]
    · simp [ollama_health_check, h]

theorem c8_health_check_total_witness :
    openai_health_check true (Except.error ("connection refused"))
      (Except.error ("unused")) = false ∧
    ollama_health_check ("llama3") false (Except.ok ())
      (Except.ok ⟨[⟨some ("llama3")⟩]⟩) = true := by
  obtain ⟨h1, _, _, _, _, _, _, _, _, _, _, _, _, _, _, _, _, _, _, h20⟩ :=
    c8_health_check_total
  refine ⟨h1 ("connection refused") (Except.error ("unused")), ?_⟩
  have h := h20 ("llama3") false ⟨[⟨some ("llama3")⟩]⟩ [("llama3")] (by decide)
  rw [h]
  decide

/-- C9 counterexample: a failing OpenAI client construction raises a
ProviderError whose error code is left at the None constructor default,
not unknown_error or any other specific kind. -/
theorem c9_counterexample :
    openaiInitClient (Except.error ("boom")) =
      Except.error ⟨("Failed to initialize OpenAI client: boom"), ("openai"), none⟩ ∧
    (AIProviderError.mk ("Failed to initialize OpenAI client: boom") ("openai")
        none).errorCode ≠ some ("unknown_error") :=
  ⟨by decide, by decide⟩

/-- C9 amended: every adapter re-raises a construction failure as a
ProviderError tagged with its own provider identity and with no error code
set, and returns true on a successful construction. -/
theorem c9_init_amended (msg : String) :
    openaiInitClient (Except.error msg) =
      Except.error ⟨("Failed to initialize OpenAI client: ") ++ msg, ("openai"), none⟩ ∧
    anthropicInitClient (Except.error msg) =
      Except.error ⟨("Failed to initialize Anthropic client: ") ++ msg, ("anthropic"), none⟩ ∧
    googleInitClient (Except.error msg) =
      Except.error ⟨("Failed to initialize Google client: ") ++ msg, ("google"), none⟩ ∧
    openrouterInitClient (Except.error msg) =
      Except.error ⟨("Failed to initialize OpenRouter client: ") ++ msg, ("openrouter"), none⟩ ∧
    xaiInitClient (Except.error msg) =
      Except.error ⟨("Failed to initialize XAI client: ") ++ msg, ("xai"), none⟩ ∧
    ollamaInitClient (Except.error msg) =
      Except.error ⟨("Failed to initialize Ollama client: ") ++ msg, ("ollama"), none⟩ ∧
    openaiInitClient (Except.ok ()) = Except.ok true ∧
    anthropicInitClient (Except.ok ()) = Except.ok true ∧
    googleInitClient (Except.ok ()) = Except.ok true ∧
    openrouterInitClient (Except.ok ()) = Except.ok true ∧
    xaiInitClient (Except.ok ()) = Except.ok true ∧
    ollamaInitClient (Except.ok ()) = Except.ok true :=
  ⟨rfl, rfl, rfl, rfl, rfl, rfl, rfl, rfl, rfl, rfl, rfl, rfl⟩

theorem c9_init_amended_witness :
    openaiInitClient (Except.error ("boom")) =
      Except.error ⟨("Failed to initialize OpenAI client: ") ++ ("boom"), ("openai"), none⟩ :=
  (c9_init_amended ("boom")).1

/-- Manager fixture whose only live provider is absent from the priority
list. -/
def mC10 : AIProviderManager :=
  { providers := [("xai")]
    providerConfigs := []
    providerPriority := [("openai")]
    inited := true }

/-- Manager fixture whose only live provider heads the priority list. -/
def mC10b : AIProviderManager :=
  { providers := [("openai")]
    providerConfigs := []
    providerPriority := [("openai")]
    inited := true }

/-- C10: get_preferred_provider only ever returns a name from the
configured priority list that is also live, and a manager whose only live,
healthy provider is absent from the priority list yields none from
get_preferred_provider while get_available_providers still lists that
provider. -/
theorem c10_preferred_priority_only :
    (∀ (m : AIProviderManager) (initFails : String → Bool)
        (health : String → Except String Bool) (n : String),
        get_preferred_provider initFails m health = some n →
        n ∈ m.providerPriority ∧ n ∈ (mgrInit initFails m).providers) ∧
    (get_preferred_provider (fun _ => false) mC10 (fun _ => Except.ok true) = none ∧
      get_available_providers (fun _ => false) mC10 = [("xai")] ∧
      ("xai") ∈ get_available_providers (fun _ => false) mC10) := by
  constructor
  · intro m initFails health n h
    unfold get_preferred_provider at h
    have hw := preferredWalk_some h
    exact ⟨mgrInit_priority ▸ hw.1, hw.2⟩
  · exact ⟨by decide, by decide, by decide⟩

theorem c10_preferred_priority_only_witness :
    get_preferred_provider (fun _ => false) mC10b (fun _ => Except.ok true) =
      some ("openai") ∧
    (("openai") ∈ mC10b.providerPriority ∧
      ("openai") ∈ (mgrInit (fun _ => false) mC10b).providers) :=
  ⟨by decide,
    c10_preferred_priority_only.1 mC10b (fun _ => false) (fun _ => Except.ok true)
      ("openai") (by decide)⟩

end Coach
